import Mathlib

/-!
Verification of the LED/Aura effect controller and its persisted
configuration store (the `CtrlKbdLed` / `AuraConfig` subsystem of the
asusctl daemon).

The definitions below are a shallow embedding of
`daemon/src/ctrl_aura/config.rs` and `daemon/src/ctrl_aura/controller.rs`.
Types that live in the `rog_aura` support crate (not part of the audited
sources) are modelled from the specification and carry a doc comment
saying so.  `BTreeMap` is modelled as an association list with unique
keys; only `get`/`insert` are used by the audited code, and the embedding
reproduces their observable behaviour.
-/

namespace Asusctl

/-- Modelled from the spec: identifiers of the built-in lighting effects
("e.g. Static, Breathe, Rainbow, ..."), ordered for deterministic
iteration and mode cycling.  The exact constructor set lives in the
`rog_aura` crate, which is outside the audited sources. -/
inductive AuraModeNum where
  | Static
  | Breathe
  | Strobe
  | Rainbow
  | Star
  | Rain
  | Pulse
  | Comet
  | Flash
deriving DecidableEq, Repr

/-- Modelled from the spec: the target zone of an effect, `None`
(applies globally) or a specific physical zone identifier. -/
inductive AuraZone where
  | none
  | one
  | two
  | three
  | four
deriving DecidableEq, Repr

/-- Modelled from the spec: effect animation speed. -/
inductive Speed where
  | Low
  | Med
  | High
deriving DecidableEq, Repr

/-- Modelled from the spec: effect animation direction. -/
inductive Direction where
  | Right
  | Left
  | Up
  | Down
deriving DecidableEq, Repr

/-- Modelled from the spec: an RGB colour, three byte components. -/
structure Colour where
  r : Nat
  g : Nat
  b : Nat
deriving DecidableEq, Repr

/-- Modelled from the spec: one configured effect instance - mode id,
colours, speed/direction, target zone.  The concrete struct lives in the
`rog_aura` crate, outside the audited sources. -/
structure AuraEffect where
  mode : AuraModeNum
  zone : AuraZone
  colour1 : Colour
  colour2 : Colour
  speed : Speed
  direction : Direction
deriving DecidableEq, Repr

/-- Modelled from the spec: ordinal brightness enum with numeric
mapping 0-3. -/
inductive LedBrightness where
  | Off
  | Low
  | Med
  | High
deriving DecidableEq, Repr

/-- Numeric value 0-3 of a brightness level. -/
def LedBrightness.toNat : LedBrightness → Nat
  | .Off => 0
  | .Low => 1
  | .Med => 2
  | .High => 3

/-- Modelled from the spec: conversion from a numeric level; the audited
code only ever applies it to values 0-3. -/
def LedBrightness.fromNat : Nat → LedBrightness
  | 0 => .Off
  | 1 => .Low
  | 2 => .Med
  | 3 => .High
  | _ => .Off

/-- Modelled from the spec: the device-specific character-code encoding
of a brightness level written to the brightness sysfs node (the digit
character for the level). -/
def LedBrightness.as_char_code (b : LedBrightness) : Nat :=
  48 + b.toNat

/-- The five independent power-state boolean flags
(`rog_aura::LedPowerStates`, fields as used by the audited sources). -/
structure LedPowerStates where
  boot_anim : Bool
  sleep_anim : Bool
  all_leds : Bool
  keys_leds : Bool
  side_leds : Bool
deriving DecidableEq, Repr

/-- Modelled from the spec: the capability descriptor
(`LaptopLedData`) - the ordered list of standard modes the physical
device supports, plus the multizone / per-key capability flags. -/
structure LaptopLedData where
  standard : List AuraModeNum
  multizone : Bool
  per_key : Bool
deriving DecidableEq, Repr

/-- Lookup in a `BTreeMap` modelled as an association list
(first binding for the key wins; the audited code keeps keys unique). -/
def mapGet {α : Type} (m : List (AuraModeNum × α)) (k : AuraModeNum) : Option α :=
  match m with
  | [] => Option.none
  | (k2, v) :: rest => if k2 = k then Option.some v else mapGet rest k

/-- `BTreeMap::insert`: replace the binding for `k` if present,
otherwise add one. -/
def mapInsert {α : Type} (m : List (AuraModeNum × α)) (k : AuraModeNum) (v : α) :
    List (AuraModeNum × α) :=
  match m with
  | [] => [(k, v)]
  | (k2, v2) :: rest => if k2 = k then (k, v) :: rest else (k2, v2) :: mapInsert rest k v

/-- The persisted configuration root (`AuraConfig` in
`daemon/src/ctrl_aura/config.rs`). -/
structure AuraConfig where
  brightness : LedBrightness
  current_mode : AuraModeNum
  builtins : List (AuraModeNum × AuraEffect)
  multizone : Option (List (AuraModeNum × List AuraEffect))
  power_states : LedPowerStates
deriving DecidableEq, Repr

/-- `AuraConfig::default()`: Med brightness, Static mode, empty builtins,
no multizone map, every power-state flag true. -/
def AuraConfig.default : AuraConfig :=
  { brightness := LedBrightness.Med
    current_mode := AuraModeNum.Static
    builtins := []
    multizone := Option.none
    power_states :=
      { boot_anim := true
        sleep_anim := true
        all_leds := true
        keys_leds := true
        side_leds := true } }

/-- The in-place update loop of `set_builtin`'s multizone branch: walk
the sequence and overwrite the first entry whose `mode` equals the new
effect's `mode` (the source compares `fx.mode == effect.mode`), leaving
the rest untouched. -/
def replace_first_mode (fxs : List AuraEffect) (effect : AuraEffect) : List AuraEffect :=
  match fxs with
  | [] => []
  | fx :: rest =>
      if fx.mode = effect.mode then effect :: rest
      else fx :: replace_first_mode rest effect

/-- `AuraConfig::set_builtin`: zone `None` upserts into `builtins`;
otherwise, when a multizone map exists, either rewrite the sequence for
the effect's mode via the first-matching-mode loop, or (when the mode has
no entry) replace the whole multizone map by a fresh singleton map; when
no multizone map exists, do nothing. -/
def AuraConfig.set_builtin (cfg : AuraConfig) (effect : AuraEffect) : AuraConfig :=
  match effect.zone with
  | AuraZone.none => { cfg with builtins := mapInsert cfg.builtins effect.mode effect }
  | _ =>
    match cfg.multizone with
    | Option.some multi =>
      match mapGet multi effect.mode with
      | Option.some fxs =>
          { cfg with
            multizone := Option.some (mapInsert multi effect.mode (replace_first_mode fxs effect)) }
      | Option.none => { cfg with multizone := Option.some [(effect.mode, [effect])] }
    | Option.none => cfg

/-- `AuraConfig::get_multizone`: sequence of zoned effects stored for a
mode, when the multizone map exists and has an entry. -/
def AuraConfig.get_multizone (cfg : AuraConfig) (aura_type : AuraModeNum) :
    Option (List AuraEffect) :=
  match cfg.multizone with
  | Option.some multi => mapGet multi aura_type
  | Option.none => Option.none

/-- Index of the first entry of the sequence whose mode id is `m`. -/
def first_mode_idx (fxs : List AuraEffect) (m : AuraModeNum) : Option Nat :=
  match fxs with
  | [] => Option.none
  | fx :: rest =>
      if fx.mode = m then Option.some 0
      else (first_mode_idx rest m).map (fun i => i + 1)

/-- A zoned Static effect stored at zone one. -/
def fxStaticOne : AuraEffect :=
  { mode := AuraModeNum.Static, zone := AuraZone.one
    colour1 := { r := 255, g := 0, b := 0 }, colour2 := { r := 0, g := 0, b := 0 }
    speed := Speed.Med, direction := Direction.Right }

/-- A zoned Static effect stored at zone two. -/
def fxStaticTwo : AuraEffect :=
  { mode := AuraModeNum.Static, zone := AuraZone.two
    colour1 := { r := 0, g := 0, b := 255 }, colour2 := { r := 0, g := 0, b := 0 }
    speed := Speed.Med, direction := Direction.Right }

/-- An updated Static effect targeting zone two (different colour). -/
def eW1 : AuraEffect :=
  { mode := AuraModeNum.Static, zone := AuraZone.two
    colour1 := { r := 0, g := 255, b := 0 }, colour2 := { r := 0, g := 0, b := 0 }
    speed := Speed.High, direction := Direction.Left }

/-- Config whose multizone map holds Static effects at zones one and two. -/
def cfgW1 : AuraConfig :=
  { AuraConfig.default with
    multizone := Option.some [(AuraModeNum.Static, [fxStaticOne, fxStaticTwo])] }

/-- A zoned Breathe effect (mode with no multizone entry in the test configs). -/
def eW2 : AuraEffect :=
  { mode := AuraModeNum.Breathe, zone := AuraZone.one
    colour1 := { r := 10, g := 20, b := 30 }, colour2 := { r := 0, g := 0, b := 0 }
    speed := Speed.Low, direction := Direction.Up }

/-- Config that never initialized a multizone map. -/
def cfgW2a : AuraConfig := AuraConfig.default

/-- Config whose multizone map holds only a Static entry. -/
def cfgW2b : AuraConfig :=
  { AuraConfig.default with
    multizone := Option.some [(AuraModeNum.Static, [fxStaticOne])] }

/-- Error taxonomy: the `RogError` variants exercised by the audited
controller paths (`daemon/src/error.rs` names, open failures on the
brightness node collapsed to `Path`). -/
inductive RogError where
  | NotSupported
  | Write
  | Read
  | Path
deriving DecidableEq, Repr

/-- Result of one controller operation: success, a propagated `RogError`,
or a process-ending panic (the config store panics on unreadable or
unparseable files during `read`). -/
inductive RRes where
  | ok
  | err (e : RogError)
  | panicked
deriving DecidableEq, Repr

/-- Health of the device nodes: whether opening/writing the led write
node and the brightness sysfs node succeed. -/
structure Dev where
  ledOpenOk : Bool
  ledWriteOk : Bool
  brightOpenOk : Bool
  brightWriteOk : Bool
deriving DecidableEq, Repr

/-- Observable I/O actions of the controller, in program order: a packet
written to the led node, a byte written to the brightness node, the
config file persisted, the config file re-read. -/
inductive Act where
  | ledWrite (bytes : List Nat)
  | brightWrite (code : Nat)
  | persistConfig (c : AuraConfig)
  | readConfigFile
deriving DecidableEq, Repr

/-- Contents of a file: absent, empty, unparseable text, a serialized
`AuraConfig`, or earlier contents with a serialized `AuraConfig` written
after them at end of file (such a file as a whole fails to parse). -/
inductive FileData where
  | absent
  | empty
  | corrupt (s : String)
  | conf (c : AuraConfig)
  | appended (pre : FileData) (c : AuraConfig)
deriving DecidableEq, Repr

/-- The runtime controller state (`CtrlKbdLed` in
`daemon/src/ctrl_aura/controller.rs`). -/
structure CtrlKbdLed where
  led_node : Option String
  bright_node : String
  supported_modes : LaptopLedData
  flip_effect_write : Bool
  config : AuraConfig
deriving DecidableEq, Repr

/-- A world for the controller state machine: the controller, device
health, the config file on disk, and the trace of I/O actions. -/
structure World where
  ctrl : CtrlKbdLed
  dev : Dev
  diskAura : FileData
  trace : List Act
deriving DecidableEq, Repr

/-- Short-circuiting sequencing of operation steps (the `?` operator). -/
def seqW (r : RRes × World) (f : World → RRes × World) : RRes × World :=
  match r with
  | (RRes.ok, w) => f w
  | other => other

/-- `CtrlKbdLed::write_bytes`: write one packet to the led node.  When no
led node exists, or the node cannot be opened, the source falls through
both `if let`s to `Err(RogError::NotSupported)`; a failed write maps to
`RogError::Write`. -/
def write_bytes (w : World) (message : List Nat) : RRes × World :=
  match w.ctrl.led_node with
  | Option.some _ =>
      if w.dev.ledOpenOk then
        if w.dev.ledWriteOk then
          (RRes.ok, { w with trace := w.trace ++ [Act.ledWrite message] })
        else (RRes.err RogError.Write, w)
      else (RRes.err RogError.NotSupported, w)
  | Option.none => (RRes.err RogError.NotSupported, w)

/-- `CtrlKbdLed::set_brightness`: write the brightness character code to
the brightness sysfs node (the source maps a failed `write_all` to
`RogError::Read("buffer")`). -/
def set_brightness (w : World) (brightness : LedBrightness) : RRes × World :=
  if w.dev.brightOpenOk then
    if w.dev.brightWriteOk then
      (RRes.ok, { w with trace := w.trace ++ [Act.brightWrite brightness.as_char_code] })
    else (RRes.err RogError.Read, w)
  else (RRes.err RogError.Path, w)

/-- `AuraConfig::write`: serialize the in-memory config over the config
file (best-effort; failures are logged, not propagated). -/
def writeConfig (w : World) : World :=
  { w with
    diskAura := FileData.conf w.ctrl.config
    trace := w.trace ++ [Act.persistConfig w.ctrl.config] }

/-- `AuraConfig::read`: re-read the config file wholesale.  An empty
file logs a warning and leaves the in-memory state unchanged; an
unopenable or unparseable file panics. -/
def readConfig (w : World) : RRes × World :=
  match w.diskAura with
  | FileData.absent => (RRes.panicked, w)
  | FileData.empty => (RRes.ok, { w with trace := w.trace ++ [Act.readConfigFile] })
  | FileData.corrupt _ => (RRes.panicked, w)
  | FileData.appended _ _ => (RRes.panicked, w)
  | FileData.conf c =>
      (RRes.ok,
        { w with
          ctrl := { w.ctrl with config := c }
          trace := w.trace ++ [Act.readConfigFile] })

/-- `CtrlKbdLed::next_brightness`: increment the config brightness with
wraparound past 3, persist the config, then apply the new level to the
brightness node. -/
def next_brightness (w : World) : RRes × World :=
  let bright0 := w.ctrl.config.brightness.toNat + 1
  let bright := if bright0 > 3 then 0 else bright0
  let w1 :=
    { w with
      ctrl :=
        { w.ctrl with
          config := { w.ctrl.config with brightness := LedBrightness.fromNat bright } } }
  let w2 := writeConfig w1
  set_brightness w2 w2.ctrl.config.brightness

/-- `CtrlKbdLed::prev_brightness`: decrement the config brightness with
wraparound below 0, persist the config, then apply the new level to the
brightness node. -/
def prev_brightness (w : World) : RRes × World :=
  let bright0 := w.ctrl.config.brightness.toNat
  let bright := if bright0 = 0 then 3 else bright0 - 1
  let w1 :=
    { w with
      ctrl :=
        { w.ctrl with
          config := { w.ctrl.config with brightness := LedBrightness.fromNat bright } } }
  let w2 := writeConfig w1
  set_brightness w2 w2.ctrl.config.brightness

/-- Modelled from the spec: the fixed effect-packet length (`LED_MSG_LEN`
lives in the `rog_aura` crate; the packets are 17 bytes). -/
def LED_MSG_LEN : Nat := 17

/-- Modelled from the spec: zone byte tag in the effect packet. -/
def AuraZone.toByte : AuraZone → Nat
  | .none => 0
  | .one => 1
  | .two => 2
  | .three => 3
  | .four => 4

/-- Modelled from the spec: mode byte tag in the effect packet. -/
def AuraModeNum.toByte : AuraModeNum → Nat
  | .Static => 0
  | .Breathe => 1
  | .Strobe => 2
  | .Rainbow => 3
  | .Star => 4
  | .Rain => 5
  | .Pulse => 10
  | .Comet => 11
  | .Flash => 12

/-- Modelled from the spec: speed byte tag in the effect packet. -/
def Speed.toByte : Speed → Nat
  | .Low => 0xe1
  | .Med => 0xeb
  | .High => 0xf5

/-- Modelled from the spec: direction byte tag in the effect packet. -/
def Direction.toByte : Direction → Nat
  | .Right => 0
  | .Left => 1
  | .Up => 2
  | .Down => 3

/-- Modelled from the spec: serialization of one `AuraEffect` to its
fixed-length device packet (`<&AuraEffect as Into<[u8; LED_MSG_LEN]>>`,
implemented in `rog_aura`, outside the audited sources). -/
def effectBytes (e : AuraEffect) : List Nat :=
  [0x5d, 0xb3, e.zone.toByte, e.mode.toByte,
   e.colour1.r, e.colour1.g, e.colour1.b,
   e.speed.toByte, e.direction.toByte,
   e.colour2.r, e.colour2.g, e.colour2.b]
  ++ List.replicate 5 0

/-- Modelled from the spec: the fixed SET command byte sequence
(`rog_aura::usb::LED_SET`). -/
def LED_SET : List Nat := [0x5d, 0xb5, 0, 0, 0]

/-- Modelled from the spec: the fixed APPLY command byte sequence
(`rog_aura::usb::LED_APPLY`); a written effect or power state only
becomes visible and persistent on the device after APPLY. -/
def LED_APPLY : List Nat := [0x5d, 0xb4, 0, 0, 0]

/-- Modelled from the spec: `rog_aura::usb::leds_message` packs the five
power-state booleans into a 3-byte bitfield via a fixed encoding (the
encoding itself is outside the audited sources). -/
def leds_message (boot_anim sleep_anim all_leds keys_leds side_leds : Bool) : List Nat :=
  [(if boot_anim then 1 else 0) + (if sleep_anim then 2 else 0),
   (if all_leds then 1 else 0) + (if keys_leds then 2 else 0),
   if side_leds then 1 else 0]

/-- The 17-byte power-state packet assembled inside `set_power_states`:
the literal `[0x5d, 0xbd, 0x01, bytes[0], bytes[1], bytes[2], 0 x 11]`
at controller.rs lines 310-312. -/
def power_message (ps : LedPowerStates) : List Nat :=
  let bytes := leds_message ps.boot_anim ps.sleep_anim ps.all_leds ps.keys_leds ps.side_leds
  [0x5d, 0xbd, 0x01, bytes.getD 0 0, bytes.getD 1 0, bytes.getD 2 0,
   0, 0, 0, 0, 0, 0, 0, 0, 0, 0, 0]

/-- `CtrlKbdLed::set_power_states`: write the power packet, then the SET
command, then the APPLY command, aborting on the first failure. -/
def set_power_states (w : World) (config : AuraConfig) : RRes × World :=
  seqW (write_bytes w (power_message config.power_states)) (fun w1 =>
    seqW (write_bytes w1 LED_SET) (fun w2 => write_bytes w2 LED_APPLY))

/-- `CtrlKbdLed::write_mode`: reject a mode outside the supported
standard-modes set with `NotSupported`, otherwise write the serialized
effect packet, then SET, then APPLY, aborting on the first failure. -/
def write_mode (w : World) (mode : AuraEffect) : RRes × World :=
  if w.ctrl.supported_modes.standard.contains mode.mode then
    seqW (write_bytes w (effectBytes mode)) (fun w1 =>
      seqW (write_bytes w1 LED_SET) (fun w2 => write_bytes w2 LED_APPLY))
  else (RRes.err RogError.NotSupported, w)

/-- The row loop inside `_write_effect`: write each packet in turn,
aborting on the first failure. -/
def writeRows : List (List Nat) → World → RRes × World
  | [], w => (RRes.ok, w)
  | row :: rest, w => seqW (write_bytes w row) (fun w1 => writeRows rest w1)

/-- `CtrlKbdLed::_write_effect`: write the raw packets in forward row
order when `flip_effect_write` is false and in reverse row order when it
is true; on success negate the stored flag (a failed row write returns
early, before the flag is touched). -/
def _write_effect (w : World) (effect : List (List Nat)) : RRes × World :=
  let rows := if w.ctrl.flip_effect_write then effect.reverse else effect
  match writeRows rows w with
  | (RRes.ok, w1) =>
      (RRes.ok,
        { w1 with ctrl := { w1.ctrl with flip_effect_write := !w1.ctrl.flip_effect_write } })
  | other => other

/-- `Iterator::position` on the standard-modes list. -/
def position (l : List AuraModeNum) (m : AuraModeNum) : Option Nat :=
  match l with
  | [] => Option.none
  | x :: xs => if x = m then Option.some 0 else (position xs m).map (fun i => i + 1)

/-- The target-mode computation of `toggle_mode`: the position of the
current mode in the standard-modes list, stepped by one with wraparound
in the requested direction. -/
def toggle_target (std : List AuraModeNum) (current : AuraModeNum) (reverse : Bool) :
    Option AuraModeNum :=
  match position std current with
  | Option.none => Option.none
  | Option.some idx =>
      let len := std.length
      let idx2 :=
        if reverse then (if idx = 0 then len - 1 else idx - 1)
        else (if idx + 1 = len then 0 else idx + 1)
      Option.some (std.getD idx2 current)

/-- `CtrlKbdLed::toggle_mode`: silently succeed when the current mode is
not in the capability list; otherwise compute the wrapped neighbour
mode, re-read the config file, and, when the target mode has a builtins
entry, write it to the device and update `current_mode`; in either case
rewrite the config file. -/
def toggle_mode (w : World) (reverse : Bool) : RRes × World :=
  let current := w.ctrl.config.current_mode
  match position w.ctrl.supported_modes.standard current with
  | Option.none => (RRes.ok, w)
  | Option.some idx =>
      let len := w.ctrl.supported_modes.standard.length
      let idx2 :=
        if reverse then (if idx = 0 then len - 1 else idx - 1)
        else (if idx + 1 = len then 0 else idx + 1)
      let next := w.ctrl.supported_modes.standard.getD idx2 current
      match readConfig w with
      | (RRes.ok, w1) =>
          match mapGet w1.ctrl.config.builtins next with
          | Option.some data =>
              match write_mode w1 data with
              | (RRes.ok, w2) =>
                  let w3 :=
                    { w2 with
                      ctrl :=
                        { w2.ctrl with
                          config := { w2.ctrl.config with current_mode := next } } }
                  (RRes.ok, writeConfig w3)
              | other => other
          | Option.none => (RRes.ok, writeConfig w1)
      | other => other

/-- Modelled from the spec: `AuraEffect::default_with_mode` (in
`rog_aura`, outside the audited sources) - the mode-default effect used
to seed the builtins map. -/
def AuraEffect.default_with_mode (mode : AuraModeNum) : AuraEffect :=
  { mode := mode, zone := AuraZone.none
    colour1 := { r := 166, g := 0, b := 0 }, colour2 := { r := 0, g := 0, b := 0 }
    speed := Speed.Med, direction := Direction.Right }

/-- The filesystem seen by `AuraConfig::load`: the config file path and
its `-old` backup path. -/
structure Fs where
  main : FileData
  backupOld : Option FileData
deriving DecidableEq, Repr

/-- The path whose inode the file handle opened by `load` currently
refers to: `std::fs::rename` moves the inode, and an open handle follows
it, so after the corrupt-path rename the handle refers to the `-old`
backup path. -/
inductive HandlePath where
  | mainPath
  | backupPath
deriving DecidableEq, Repr

/-- Writing a serialized config through a handle whose cursor is at end
of file (after `read_to_string`): on an empty (or just-created) file the
file then holds exactly the serialized config; on a non-empty file the
serialized config lands after the existing contents. -/
def FileData.appendConf : FileData → AuraConfig → FileData
  | FileData.empty, c => FileData.conf c
  | FileData.absent, c => FileData.conf c
  | pre, c => FileData.appended pre c

/-- The seeding loop of `create_default`: insert a mode-default builtin
effect for every supported standard mode. -/
def seed_builtins (modes : List AuraModeNum) (acc : List (AuraModeNum × AuraEffect)) :
    List (AuraModeNum × AuraEffect) :=
  match modes with
  | [] => acc
  | n :: rest => seed_builtins rest (mapInsert acc n (AuraEffect.default_with_mode n))

/-- `AuraConfig::create_default`: build the default config, seed a
mode-default builtin for every supported standard mode, serialize it and
write it through the file handle `load` passed in, and return it.  The
handle follows the inode it was opened on with its cursor at end of
file after `read_to_string`, so the write appends to whichever path
that inode currently carries. -/
def create_default (fs : Fs) (h : HandlePath) (support_data : LaptopLedData) :
    AuraConfig × Fs :=
  let config := { AuraConfig.default with builtins := seed_builtins support_data.standard [] }
  match h with
  | HandlePath.mainPath => (config, { fs with main := fs.main.appendConf config })
  | HandlePath.backupPath =>
      (config,
        { fs with
          backupOld := Option.some ((fs.backupOld.getD FileData.absent).appendConf config) })

/-- `AuraConfig::load`: open the config file (creating it if absent) and
keep the handle; an empty file gets the seeded defaults written through
that handle and returned; a parseable file is returned as-is; an
unparseable file is renamed aside to the `-old` backup before
`create_default` runs - the still-open handle follows the renamed
inode, so the defaults land in the backup file, not at the config
path. -/
def load (fs : Fs) (supported_led_modes : LaptopLedData) : AuraConfig × Fs :=
  let fs1 :=
    match fs.main with
    | FileData.absent => { fs with main := FileData.empty }
    | _ => fs
  match fs1.main with
  | FileData.empty => create_default fs1 HandlePath.mainPath supported_led_modes
  | FileData.conf c => (c, fs1)
  | FileData.corrupt s =>
      create_default
        { fs1 with main := FileData.absent, backupOld := Option.some (FileData.corrupt s) }
        HandlePath.backupPath supported_led_modes
  | FileData.appended pre c =>
      create_default
        { fs1 with
          main := FileData.absent, backupOld := Option.some (FileData.appended pre c) }
        HandlePath.backupPath supported_led_modes
  | FileData.absent => create_default fs1 HandlePath.mainPath supported_led_modes

/-- Capability descriptor used by the concrete witness worlds. -/
def ledDataSBR : LaptopLedData :=
  { standard := [AuraModeNum.Static, AuraModeNum.Breathe, AuraModeNum.Rainbow]
    multizone := false
    per_key := false }

/-- Controller used by the concrete witness worlds. -/
def ctrlBase : CtrlKbdLed :=
  { led_node := Option.some "hidraw0"
    bright_node := "kbd_backlight"
    supported_modes := ledDataSBR
    flip_effect_write := false
    config := AuraConfig.default }

/-- Device whose brightness-node writes fail. -/
def devBrightDead : Dev :=
  { ledOpenOk := true, ledWriteOk := true, brightOpenOk := true, brightWriteOk := false }

/-- World with a failing brightness node, for the C7 witness. -/
def wC7 : World :=
  { ctrl := ctrlBase, dev := devBrightDead, diskAura := FileData.empty, trace := [] }

/-- Fully healthy device nodes. -/
def devAllOk : Dev :=
  { ledOpenOk := true, ledWriteOk := true, brightOpenOk := true, brightWriteOk := true }

/-- Healthy world over the default config, in sync with its file. -/
def wC3 : World :=
  { ctrl := ctrlBase, dev := devAllOk
    diskAura := FileData.conf AuraConfig.default, trace := [] }

/-- An effect whose mode (Pulse) is outside `ledDataSBR.standard`. -/
def ePulse : AuraEffect :=
  { mode := AuraModeNum.Pulse, zone := AuraZone.none
    colour1 := { r := 1, g := 2, b := 3 }, colour2 := { r := 0, g := 0, b := 0 }
    speed := Speed.Low, direction := Direction.Down }

/-- World whose controller has no led write node. -/
def wC9 : World :=
  { ctrl := { ctrlBase with led_node := Option.none }, dev := devAllOk
    diskAura := FileData.empty, trace := [] }

/-- Healthy world whose direction flag is currently set. -/
def wC9w : World :=
  { ctrl := { ctrlBase with flip_effect_write := true }, dev := devAllOk
    diskAura := FileData.empty, trace := [] }

/-- Builtins table holding mode-default effects for Static, Breathe and
Rainbow. -/
def cfg8Builtins : List (AuraModeNum × AuraEffect) :=
  [(AuraModeNum.Static, AuraEffect.default_with_mode AuraModeNum.Static),
   (AuraModeNum.Breathe, AuraEffect.default_with_mode AuraModeNum.Breathe),
   (AuraModeNum.Rainbow, AuraEffect.default_with_mode AuraModeNum.Rainbow)]

/-- Config currently on Rainbow with a fully seeded builtins table. -/
def cfg8a : AuraConfig :=
  { AuraConfig.default with current_mode := AuraModeNum.Rainbow, builtins := cfg8Builtins }

/-- Config currently on Static with a fully seeded builtins table. -/
def cfg8b : AuraConfig :=
  { AuraConfig.default with current_mode := AuraModeNum.Static, builtins := cfg8Builtins }

/-- Healthy world on `cfg8a`, in sync with its file. -/
def wC8a : World :=
  { ctrl := { ctrlBase with config := cfg8a }, dev := devAllOk
    diskAura := FileData.conf cfg8a, trace := [] }

/-- Healthy world on `cfg8b`, in sync with its file. -/
def wC8b : World :=
  { ctrl := { ctrlBase with config := cfg8b }, dev := devAllOk
    diskAura := FileData.conf cfg8b, trace := [] }

/-- Config on Static whose builtins table lacks the Breathe entry. -/
def cfg10 : AuraConfig :=
  { AuraConfig.default with
    builtins := [(AuraModeNum.Static, AuraEffect.default_with_mode AuraModeNum.Static)] }

/-- Healthy world on `cfg10`, in sync with its file. -/
def wC10 : World :=
  { ctrl := { ctrlBase with config := cfg10 }, dev := devAllOk
    diskAura := FileData.conf cfg10, trace := [] }

/-- A config file holding unparseable text. -/
def fsC4 : Fs := { main := FileData.corrupt "bad json", backupOld := Option.none }

theorem mapGet_mapInsert_same {α : Type} (m : List (AuraModeNum × α)) (k : AuraModeNum) (v : α) :
    mapGet (mapInsert m k v) k = Option.some v := by
  induction m with
  | nil => simp [mapInsert, mapGet]
  | cons kv rest ih =>
      obtain ⟨k2, v2⟩ := kv
      by_cases h : k2 = k
      · simp [mapInsert, mapGet, h]
      · simp [mapInsert, mapGet, h, ih]

theorem mapGet_mapInsert_other {α : Type} (m : List (AuraModeNum × α)) (k k2 : AuraModeNum)
    (v : α) (h : k2 ≠ k) : mapGet (mapInsert m k v) k2 = mapGet m k2 := by
  induction m with
  | nil => simp [mapInsert, mapGet, Ne.symm h]
  | cons kv rest ih =>
      obtain ⟨k3, v3⟩ := kv
      by_cases h3 : k3 = k
      · subst h3
        simp [mapInsert, mapGet, Ne.symm h]
      · simp [mapInsert, mapGet, h3, ih]

theorem replace_first_mode_eq_set (fxs : List AuraEffect) (e : AuraEffect) (i : Nat)
    (h : first_mode_idx fxs e.mode = Option.some i) :
    replace_first_mode fxs e = fxs.set i e := by
  induction fxs generalizing i with
  | nil => simp [first_mode_idx] at h
  | cons fx rest ih =>
      by_cases hm : fx.mode = e.mode
      · simp [first_mode_idx, hm] at h
        subst h
        simp [replace_first_mode, hm]
      · simp [first_mode_idx, hm] at h
        obtain ⟨j, hj, hji⟩ := h
        subst hji
        simp [replace_first_mode, hm, ih j hj]

/-! Concrete data used by the witnesses and counterexamples for the
`set_builtin` claims. -/

theorem next_brightness_brightness (w : World) :
    ((next_brightness w).2).ctrl.config.brightness
      = LedBrightness.fromNat
          (if w.ctrl.config.brightness.toNat + 1 > 3 then 0
           else w.ctrl.config.brightness.toNat + 1) := by
  cases hbo : w.dev.brightOpenOk <;> cases hbw : w.dev.brightWriteOk <;>
    simp [next_brightness, writeConfig, set_brightness, hbo, hbw]

theorem prev_brightness_brightness (w : World) :
    ((prev_brightness w).2).ctrl.config.brightness
      = LedBrightness.fromNat
          (if w.ctrl.config.brightness.toNat = 0 then 3
           else w.ctrl.config.brightness.toNat - 1) := by
  cases hbo : w.dev.brightOpenOk <;> cases hbw : w.dev.brightWriteOk <;>
    simp [prev_brightness, writeConfig, set_brightness, hbo, hbw]

/-- C6: from any controller state, four applications of `next_brightness`
return the config brightness to its starting level, and likewise four
applications of `prev_brightness`; in particular this holds for each of
the four levels 0-3. -/
theorem brightness_cycle_period_four (w : World) :
    ((next_brightness
        ((next_brightness
          ((next_brightness ((next_brightness w).2)).2)).2)).2).ctrl.config.brightness
      = w.ctrl.config.brightness
    ∧ ((prev_brightness
        ((prev_brightness
          ((prev_brightness ((prev_brightness w).2)).2)).2)).2).ctrl.config.brightness
      = w.ctrl.config.brightness := by
  constructor
  · rw [next_brightness_brightness, next_brightness_brightness,
      next_brightness_brightness, next_brightness_brightness]
    cases hb : w.ctrl.config.brightness <;>
      simp [LedBrightness.toNat, LedBrightness.fromNat]
  · rw [prev_brightness_brightness, prev_brightness_brightness,
      prev_brightness_brightness, prev_brightness_brightness]
    cases hb : w.ctrl.config.brightness <;>
      simp [LedBrightness.toNat, LedBrightness.fromNat]

/-- C7: `next_brightness` sets the config brightness to (current + 1)
mod 4 and `prev_brightness` to (current - 1) mod 4, and both proceed in
the order mutate-in-memory, persist-to-disk, apply-to-device: the
persisted file holds the new config, the trace shows the persist before
the (conditional) device write, and when the device write fails the call
errors while the persisted config retains the new value (no rollback). -/
theorem brightness_step_order_and_divergence (w : World) :
    (next_brightness w).2.ctrl.config
      = { w.ctrl.config with
          brightness := LedBrightness.fromNat ((w.ctrl.config.brightness.toNat + 1) % 4) }
    ∧ (next_brightness w).2.diskAura
      = FileData.conf
          { w.ctrl.config with
            brightness := LedBrightness.fromNat ((w.ctrl.config.brightness.toNat + 1) % 4) }
    ∧ (next_brightness w).2.trace
      = w.trace
        ++ [Act.persistConfig
              { w.ctrl.config with
                brightness :=
                  LedBrightness.fromNat ((w.ctrl.config.brightness.toNat + 1) % 4) }]
        ++ (if w.dev.brightOpenOk && w.dev.brightWriteOk then
              [Act.brightWrite
                (LedBrightness.fromNat
                  ((w.ctrl.config.brightness.toNat + 1) % 4)).as_char_code]
            else [])
    ∧ (w.dev.brightWriteOk = false → (next_brightness w).1 ≠ RRes.ok)
    ∧ (prev_brightness w).2.ctrl.config
      = { w.ctrl.config with
          brightness := LedBrightness.fromNat ((w.ctrl.config.brightness.toNat + 3) % 4) }
    ∧ (prev_brightness w).2.diskAura
      = FileData.conf
          { w.ctrl.config with
            brightness := LedBrightness.fromNat ((w.ctrl.config.brightness.toNat + 3) % 4) }
    ∧ (prev_brightness w).2.trace
      = w.trace
        ++ [Act.persistConfig
              { w.ctrl.config with
                brightness :=
                  LedBrightness.fromNat ((w.ctrl.config.brightness.toNat + 3) % 4) }]
        ++ (if w.dev.brightOpenOk && w.dev.brightWriteOk then
              [Act.brightWrite
                (LedBrightness.fromNat
                  ((w.ctrl.config.brightness.toNat + 3) % 4)).as_char_code]
            else [])
    ∧ (w.dev.brightWriteOk = false → (prev_brightness w).1 ≠ RRes.ok) := by
  cases hb : w.ctrl.config.brightness <;>
    cases hbo : w.dev.brightOpenOk <;>
      cases hbw : w.dev.brightWriteOk <;>
        simp [next_brightness, prev_brightness, writeConfig, set_brightness, hb, hbo, hbw,
          LedBrightness.toNat, LedBrightness.fromNat, LedBrightness.as_char_code]

/-- Witness for the C7 theorem at a world whose brightness node rejects
writes: the call fails, yet the file on disk holds the bumped config. -/
theorem brightness_step_order_and_divergence_witness :
    (next_brightness wC7).1 ≠ RRes.ok
    ∧ (next_brightness wC7).2.diskAura
      = FileData.conf
          { wC7.ctrl.config with
            brightness := LedBrightness.fromNat ((wC7.ctrl.config.brightness.toNat + 1) % 4) } :=
  ⟨(brightness_step_order_and_divergence wC7).2.2.2.1 rfl,
   (brightness_step_order_and_divergence wC7).2.1⟩

theorem writeRows_ok (rows : List (List Nat)) :
    ∀ w : World, (∃ p, w.ctrl.led_node = Option.some p) →
      w.dev.ledOpenOk = true → w.dev.ledWriteOk = true →
      writeRows rows w = (RRes.ok, { w with trace := w.trace ++ rows.map Act.ledWrite }) := by
  induction rows with
  | nil => intro w _ _ _; simp [writeRows]
  | cons row rest ih =>
      rintro w ⟨p, hn⟩ ho hw
      have hstep : write_bytes w row
          = (RRes.ok, { w with trace := w.trace ++ [Act.ledWrite row] }) := by
        simp [write_bytes, hn, ho, hw]
      rw [writeRows, hstep]
      simp only [seqW]
      rw [ih { w with trace := w.trace ++ [Act.ledWrite row] } ⟨p, hn⟩ ho hw]
      simp [List.append_assoc]

theorem writeRows_ctrl (rows : List (List Nat)) :
    ∀ w : World, (writeRows rows w).2.ctrl = w.ctrl := by
  induction rows with
  | nil => intro w; simp [writeRows]
  | cons row rest ih =>
      intro w
      cases hn : w.ctrl.led_node <;> cases ho : w.dev.ledOpenOk <;>
        cases hw : w.dev.ledWriteOk <;>
          simp [writeRows, write_bytes, seqW, hn, ho, hw, ih]

/-- C9 counterexample: on a controller without a led write node, a
`_write_effect` call fails and does not flip the direction flag, so the
flag is not flipped after every call. -/
theorem write_effect_flip_claim_false :
    (_write_effect wC9 [[0]]).1 = RRes.err RogError.NotSupported
    ∧ (_write_effect wC9 [[0]]).2.ctrl.flip_effect_write = wC9.ctrl.flip_effect_write := by
  decide

/-- C9 (amended): when every packet write succeeds, `_write_effect`
writes the packets in forward row order if the stored direction flag is
false and in reverse row order if it is true, and then flips the flag;
when the call does not succeed, the direction flag is left unchanged. -/
theorem write_effect_direction_flip (w : World) (effect : List (List Nat)) :
    ((∃ p, w.ctrl.led_node = Option.some p) → w.dev.ledOpenOk = true →
      w.dev.ledWriteOk = true →
      _write_effect w effect
        = (RRes.ok,
           { w with
             ctrl := { w.ctrl with flip_effect_write := !w.ctrl.flip_effect_write }
             trace := w.trace
               ++ (if w.ctrl.flip_effect_write then effect.reverse else effect).map
                    Act.ledWrite }))
    ∧ ((_write_effect w effect).1 ≠ RRes.ok →
        (_write_effect w effect).2.ctrl.flip_effect_write = w.ctrl.flip_effect_write) := by
  constructor
  · rintro ⟨p, hn⟩ ho hw
    rw [_write_effect, writeRows_ok _ w ⟨p, hn⟩ ho hw]
  · intro hfail
    rcases hr : writeRows (if w.ctrl.flip_effect_write then effect.reverse else effect) w
      with ⟨r, w1⟩
    have hc := writeRows_ctrl (if w.ctrl.flip_effect_write then effect.reverse else effect) w
    rw [hr] at hc
    simp only at hc
    cases r with
    | ok => exact absurd (by simp [_write_effect, hr]) hfail
    | err e => simp [_write_effect, hr, hc]
    | panicked => simp [_write_effect, hr, hc]

/-- Witness for the amended C9 theorem: with the direction flag set, two
packets go out in reverse row order and the flag drops back to false. -/
theorem write_effect_direction_flip_witness :
    _write_effect wC9w [[1], [2]]
      = (RRes.ok,
         { wC9w with
           ctrl := { wC9w.ctrl with flip_effect_write := false }
           trace := [Act.ledWrite [2], Act.ledWrite [1]] }) := by
  have h := (write_effect_direction_flip wC9w [[1], [2]]).1 ⟨"hidraw0", rfl⟩ rfl rfl
  simpa using h

/-- C5: `write_mode` of an effect whose mode id is outside the
supported standard-modes set returns `NotSupported` and returns the
world unchanged: zero device writes, controller and config untouched. -/
theorem write_mode_not_supported (w : World) (mode : AuraEffect)
    (h : w.ctrl.supported_modes.standard.contains mode.mode = false) :
    write_mode w mode = (RRes.err RogError.NotSupported, w) := by
  have hx : ¬ (w.ctrl.supported_modes.standard.contains mode.mode = true) := by
    rw [h]
    simp
  rw [write_mode, if_neg hx]

/-- Witness for the C5 theorem: a Pulse effect against the
Static/Breathe/Rainbow capability list. -/
theorem write_mode_not_supported_witness :
    write_mode wC3 ePulse = (RRes.err RogError.NotSupported, wC3) :=
  write_mode_not_supported wC3 ePulse (by decide)

/-- C3 counterexample: the power packet for the default (all-true) flag
set is 17 bytes, which is not of the claimed shape header, 3 flag
bytes, then 13 zero bytes: that shape has 19 bytes. -/
theorem power_packet_thirteen_zeros_false :
    (power_message AuraConfig.default.power_states).length = 17
    ∧ power_message AuraConfig.default.power_states
      ≠ [0x5d, 0xbd, 0x01]
        ++ leds_message true true true true true
        ++ List.replicate 13 0 := by
  decide

/-- C3 (amended): for every flag assignment the power packet built by
`set_power_states` is exactly 17 bytes, its first three bytes are 0x5D
0xBD 0x01, it is the header followed by the 3 packed flag bytes and
eleven zero bytes, and the call writes the packet, then the SET command,
then the APPLY command, in that order. -/
theorem set_power_states_packet (w : World) (config : AuraConfig) (p : String)
    (hn : w.ctrl.led_node = Option.some p)
    (ho : w.dev.ledOpenOk = true) (hw : w.dev.ledWriteOk = true) :
    (power_message config.power_states).length = 17
    ∧ (power_message config.power_states).take 3 = [0x5d, 0xbd, 0x01]
    ∧ power_message config.power_states
      = [0x5d, 0xbd, 0x01]
        ++ leds_message config.power_states.boot_anim config.power_states.sleep_anim
            config.power_states.all_leds config.power_states.keys_leds
            config.power_states.side_leds
        ++ List.replicate 11 0
    ∧ set_power_states w config
      = (RRes.ok,
         { w with
           trace := w.trace
             ++ [Act.ledWrite (power_message config.power_states),
                 Act.ledWrite LED_SET, Act.ledWrite LED_APPLY] }) := by
  refine ⟨rfl, rfl, rfl, ?_⟩
  simp [set_power_states, seqW, write_bytes, hn, ho, hw, List.append_assoc]

/-- Witness for the amended C3 theorem on a healthy world with the
default (all-true) flags. -/
theorem set_power_states_packet_witness :
    (power_message AuraConfig.default.power_states).take 3 = [0x5d, 0xbd, 0x01]
    ∧ set_power_states wC3 AuraConfig.default
      = (RRes.ok,
         { wC3 with
           trace := [Act.ledWrite (power_message AuraConfig.default.power_states),
                     Act.ledWrite LED_SET, Act.ledWrite LED_APPLY] }) := by
  refine ⟨(set_power_states_packet wC3 AuraConfig.default "hidraw0" rfl rfl rfl).2.1, ?_⟩
  have h := (set_power_states_packet wC3 AuraConfig.default "hidraw0" rfl rfl rfl).2.2.2
  simpa using h

/-- C1 counterexample: on a multizone sequence holding a Static effect at
zone one and one at zone two, `set_builtin` with an updated Static effect
at zone two overwrites the zone-one entry (the source loop matches on
`mode`, not on `zone`), so the zone-one entry is not preserved and two
entries at zone two remain. -/
theorem set_builtin_zone_match_claim_false :
    (cfgW1.set_builtin eW1).get_multizone AuraModeNum.Static
      = Option.some [eW1, fxStaticTwo]
    ∧ fxStaticTwo.zone = eW1.zone ∧ fxStaticTwo ≠ eW1
    ∧ fxStaticOne.zone ≠ eW1.zone
    ∧ ¬ (fxStaticOne.zone ≠ eW1.zone → fxStaticOne ∈ [eW1, fxStaticTwo])
    ∧ (List.filter (fun x => decide (x.zone = eW1.zone)) [eW1, fxStaticTwo]).length = 2 := by
  decide

/-- C1 (amended): for a zoned effect `e` whose mode has a multizone
sequence with an entry of matching mode id, `set_builtin e` replaces the
first entry of matching mode id by `e` (matching is by mode, not by
zone), preserves all other entries of that sequence as a list, preserves
every other mode's multizone sequence, and leaves `builtins` unchanged. -/
theorem set_builtin_zoned_existing_entry (cfg : AuraConfig) (e : AuraEffect)
    (multi : List (AuraModeNum × List AuraEffect)) (fxs : List AuraEffect) (i : Nat)
    (hz : e.zone ≠ AuraZone.none)
    (hm : cfg.multizone = Option.some multi)
    (hf : mapGet multi e.mode = Option.some fxs)
    (hi : first_mode_idx fxs e.mode = Option.some i) :
    (cfg.set_builtin e).get_multizone e.mode = Option.some (fxs.set i e)
    ∧ (∀ m : AuraModeNum, m ≠ e.mode →
        (cfg.set_builtin e).get_multizone m = cfg.get_multizone m)
    ∧ (cfg.set_builtin e).builtins = cfg.builtins := by
  have hb : cfg.set_builtin e
      = { cfg with
          multizone := Option.some (mapInsert multi e.mode (replace_first_mode fxs e)) } := by
    cases hez : e.zone with
    | none => exact absurd hez hz
    | one => simp [AuraConfig.set_builtin, hez, hm, hf]
    | two => simp [AuraConfig.set_builtin, hez, hm, hf]
    | three => simp [AuraConfig.set_builtin, hez, hm, hf]
    | four => simp [AuraConfig.set_builtin, hez, hm, hf]
  refine ⟨?_, ?_, ?_⟩
  · rw [hb]
    simp [AuraConfig.get_multizone, mapGet_mapInsert_same,
      replace_first_mode_eq_set fxs e i hi]
  · intro m hm2
    rw [hb]
    simp [AuraConfig.get_multizone, hm, mapGet_mapInsert_other _ _ _ _ hm2]
  · rw [hb]

/-- Witness for the amended C1 theorem at the concrete config `cfgW1`. -/
theorem set_builtin_zoned_existing_entry_witness :
    (cfgW1.set_builtin eW1).get_multizone AuraModeNum.Static
      = Option.some ([fxStaticOne, fxStaticTwo].set 0 eW1)
    ∧ (cfgW1.set_builtin eW1).get_multizone AuraModeNum.Breathe
      = cfgW1.get_multizone AuraModeNum.Breathe :=
  ⟨(set_builtin_zoned_existing_entry cfgW1 eW1
      [(AuraModeNum.Static, [fxStaticOne, fxStaticTwo])] [fxStaticOne, fxStaticTwo] 0
      (by decide) rfl (by decide) (by decide)).1,
   (set_builtin_zoned_existing_entry cfgW1 eW1
      [(AuraModeNum.Static, [fxStaticOne, fxStaticTwo])] [fxStaticOne, fxStaticTwo] 0
      (by decide) rfl (by decide) (by decide)).2.1 AuraModeNum.Breathe (by decide)⟩

/-- C2 counterexample: with a multizone map holding only a Static entry,
`set_builtin` of a zoned Breathe effect discards the Static entry: the
source replaces the whole multizone map by a fresh singleton map instead
of appending to it. -/
theorem set_builtin_new_mode_claim_false :
    cfgW2b.get_multizone AuraModeNum.Static = Option.some [fxStaticOne]
    ∧ (cfgW2b.set_builtin eW2).get_multizone AuraModeNum.Static = Option.none := by
  decide

/-- C2 (amended): for a zoned effect `e` whose mode id has no multizone
entry: when no multizone map was ever initialized, `set_builtin e` leaves
the whole config unchanged; when a multizone map exists, `set_builtin e`
replaces the entire multizone map by the singleton map `e.mode -> [e]`,
discarding every other mode's multizone entries. -/
theorem set_builtin_zoned_missing_entry (cfg : AuraConfig) (e : AuraEffect)
    (hz : e.zone ≠ AuraZone.none) :
    (cfg.multizone = Option.none → cfg.set_builtin e = cfg)
    ∧ (∀ multi, cfg.multizone = Option.some multi →
        mapGet multi e.mode = Option.none →
        (cfg.set_builtin e).multizone = Option.some [(e.mode, [e])]
        ∧ (cfg.set_builtin e).builtins = cfg.builtins) := by
  constructor
  · intro hn
    cases hez : e.zone with
    | none => exact absurd hez hz
    | one => simp [AuraConfig.set_builtin, hez, hn]
    | two => simp [AuraConfig.set_builtin, hez, hn]
    | three => simp [AuraConfig.set_builtin, hez, hn]
    | four => simp [AuraConfig.set_builtin, hez, hn]
  · intro multi hm hg
    cases hez : e.zone with
    | none => exact absurd hez hz
    | one => simp [AuraConfig.set_builtin, hez, hm, hg]
    | two => simp [AuraConfig.set_builtin, hez, hm, hg]
    | three => simp [AuraConfig.set_builtin, hez, hm, hg]
    | four => simp [AuraConfig.set_builtin, hez, hm, hg]

/-- Witness for the amended C2 theorem: the no-op case on a config with
no multizone map, and the map-replacement case on `cfgW2b`. -/
theorem set_builtin_zoned_missing_entry_witness :
    cfgW2a.set_builtin eW2 = cfgW2a
    ∧ (cfgW2b.set_builtin eW2).multizone
      = Option.some [(AuraModeNum.Breathe, [eW2])] :=
  ⟨(set_builtin_zoned_missing_entry cfgW2a eW2 (by decide)).1 rfl,
   ((set_builtin_zoned_missing_entry cfgW2b eW2 (by decide)).2 _ rfl rfl).1⟩

/-- C8: on the capability list Static, Breathe, Rainbow with a healthy
device and the config file in sync, `toggle_mode(reverse=false)` from
`current_mode=Rainbow` wraps to `current_mode=Static`, and
`toggle_mode(reverse=true)` from `current_mode=Static` wraps to
`current_mode=Rainbow`, provided the target mode has a builtins entry of
that mode (which the device write requires). -/
theorem toggle_mode_wraparound (w : World) (p : String) (eS eR : AuraEffect)
    (hn : w.ctrl.led_node = Option.some p)
    (ho : w.dev.ledOpenOk = true) (hw : w.dev.ledWriteOk = true)
    (hstd : w.ctrl.supported_modes.standard
      = [AuraModeNum.Static, AuraModeNum.Breathe, AuraModeNum.Rainbow])
    (hsync : w.diskAura = FileData.conf w.ctrl.config) :
    (w.ctrl.config.current_mode = AuraModeNum.Rainbow →
      mapGet w.ctrl.config.builtins AuraModeNum.Static = Option.some eS →
      eS.mode = AuraModeNum.Static →
      (toggle_mode w false).1 = RRes.ok
      ∧ (toggle_mode w false).2.ctrl.config.current_mode = AuraModeNum.Static)
    ∧ (w.ctrl.config.current_mode = AuraModeNum.Static →
      mapGet w.ctrl.config.builtins AuraModeNum.Rainbow = Option.some eR →
      eR.mode = AuraModeNum.Rainbow →
      (toggle_mode w true).1 = RRes.ok
      ∧ (toggle_mode w true).2.ctrl.config.current_mode = AuraModeNum.Rainbow) := by
  constructor
  · intro hcur hbS hmS
    have hp : position [AuraModeNum.Static, AuraModeNum.Breathe, AuraModeNum.Rainbow]
        AuraModeNum.Rainbow = Option.some 2 := by decide
    have hcont : ([AuraModeNum.Static, AuraModeNum.Breathe,
        AuraModeNum.Rainbow].contains AuraModeNum.Static) = true := by decide
    simp [toggle_mode, hstd, hcur, hp, readConfig, hsync, hbS, write_mode, hmS, hcont,
      write_bytes, hn, ho, hw, seqW, writeConfig]
  · intro hcur hbR hmR
    have hp : position [AuraModeNum.Static, AuraModeNum.Breathe, AuraModeNum.Rainbow]
        AuraModeNum.Static = Option.some 0 := by decide
    have hcont : ([AuraModeNum.Static, AuraModeNum.Breathe,
        AuraModeNum.Rainbow].contains AuraModeNum.Rainbow) = true := by decide
    simp [toggle_mode, hstd, hcur, hp, readConfig, hsync, hbR, write_mode, hmR, hcont,
      write_bytes, hn, ho, hw, seqW, writeConfig]

/-- Witness for the C8 theorem: both wraparound directions on concrete
worlds with seeded builtins tables. -/
theorem toggle_mode_wraparound_witness :
    ((toggle_mode wC8a false).1 = RRes.ok
     ∧ (toggle_mode wC8a false).2.ctrl.config.current_mode = AuraModeNum.Static)
    ∧ ((toggle_mode wC8b true).1 = RRes.ok
     ∧ (toggle_mode wC8b true).2.ctrl.config.current_mode = AuraModeNum.Rainbow) :=
  ⟨(toggle_mode_wraparound wC8a "hidraw0"
      (AuraEffect.default_with_mode AuraModeNum.Static)
      (AuraEffect.default_with_mode AuraModeNum.Rainbow)
      rfl rfl rfl rfl rfl).1 rfl (by decide) rfl,
   (toggle_mode_wraparound wC8b "hidraw0"
      (AuraEffect.default_with_mode AuraModeNum.Static)
      (AuraEffect.default_with_mode AuraModeNum.Rainbow)
      rfl rfl rfl rfl rfl).2 rfl (by decide) rfl⟩

/-- C10: when the current mode is in the capability list, the config
file is in sync, and the computed target mode has no builtins entry,
`toggle_mode` returns success, performs no device write, leaves the
config (including `current_mode`) unchanged, and still re-reads the
config file and rewrites it: the world changes only by the read and
persist actions. -/
theorem toggle_mode_missing_builtin (w : World) (reverse : Bool) (idx : Nat)
    (next : AuraModeNum)
    (hp : position w.ctrl.supported_modes.standard w.ctrl.config.current_mode
      = Option.some idx)
    (hnext : toggle_target w.ctrl.supported_modes.standard w.ctrl.config.current_mode reverse
      = Option.some next)
    (hsync : w.diskAura = FileData.conf w.ctrl.config)
    (hb : mapGet w.ctrl.config.builtins next = Option.none) :
    toggle_mode w reverse
      = (RRes.ok,
         { w with
           diskAura := FileData.conf w.ctrl.config
           trace := w.trace ++ [Act.readConfigFile, Act.persistConfig w.ctrl.config] }) := by
  have hnext2 : w.ctrl.supported_modes.standard.getD
      (if reverse then (if idx = 0 then w.ctrl.supported_modes.standard.length - 1 else idx - 1)
       else (if idx + 1 = w.ctrl.supported_modes.standard.length then 0 else idx + 1))
      w.ctrl.config.current_mode = next := by
    have h2 := hnext
    rw [toggle_target, hp] at h2
    simpa using h2
  simp only [List.getD, List.get?_eq_getElem?] at hnext2
  simp [toggle_mode, hp, hnext2, readConfig, hsync, hb, writeConfig]

/-- Witness for the C10 theorem: from Static on the
Static/Breathe/Rainbow list with no Breathe builtin, `toggle_mode`
succeeds, only reads and rewrites the file, and changes nothing else. -/
theorem toggle_mode_missing_builtin_witness :
    toggle_mode wC10 false
      = (RRes.ok,
         { wC10 with
           diskAura := FileData.conf wC10.ctrl.config
           trace := [Act.readConfigFile, Act.persistConfig wC10.ctrl.config] }) := by
  have h := toggle_mode_missing_builtin wC10 false 0 AuraModeNum.Breathe
    (by decide) (by decide) rfl (by decide)
  simpa using h

theorem seed_builtins_not_mem (modes : List AuraModeNum) :
    ∀ (acc : List (AuraModeNum × AuraEffect)) (m : AuraModeNum), m ∉ modes →
      mapGet (seed_builtins modes acc) m = mapGet acc m := by
  induction modes with
  | nil => intro acc m _; rfl
  | cons n rest ih =>
      intro acc m hm
      have h1 : m ∉ rest := fun hx => hm (List.mem_cons_of_mem _ hx)
      have h2 : m ≠ n := fun hx => hm (by rw [hx]; exact List.mem_cons_self _ _)
      rw [seed_builtins, ih _ _ h1, mapGet_mapInsert_other _ _ _ _ h2]

theorem seed_builtins_mem (modes : List AuraModeNum) :
    ∀ (acc : List (AuraModeNum × AuraEffect)) (m : AuraModeNum), m ∈ modes →
      mapGet (seed_builtins modes acc) m
        = Option.some (AuraEffect.default_with_mode m) := by
  induction modes with
  | nil => intro acc m hm; cases hm
  | cons n rest ih =>
      intro acc m hm
      by_cases hr : m ∈ rest
      · rw [seed_builtins]
        exact ih _ _ hr
      · have hmn : m = n := by
          rcases List.mem_cons.mp hm with h | h
          · exact h
          · exact absurd h hr
        subst hmn
        rw [seed_builtins, seed_builtins_not_mem rest _ _ hr, mapGet_mapInsert_same]

/-- C4 (code bug): loading a config file with unparseable contents
renames the file to the `-old` backup first and only then has
`create_default` write the seeded defaults through the still-open
handle, which follows the renamed inode with its cursor at end of file.
So the returned default configuration (mode-default builtin for every
supported standard mode, Med brightness, Static current mode) is
appended to the `-old` backup after the original bytes, and the config
file path is left with no file at all - contrary to the claimed
"persists that default configuration to the file", though no contents
are ever discarded without a backup. -/
theorem load_corrupt_appends_defaults_to_backup (fs : Fs) (caps : LaptopLedData) (s : String)
    (h : fs.main = FileData.corrupt s) :
    (load fs caps).2.main = FileData.absent
    ∧ (load fs caps).2.backupOld
      = Option.some (FileData.appended (FileData.corrupt s) (load fs caps).1)
    ∧ (∀ m ∈ caps.standard,
        mapGet (load fs caps).1.builtins m = Option.some (AuraEffect.default_with_mode m))
    ∧ (load fs caps).1.brightness = LedBrightness.Med
    ∧ (load fs caps).1.current_mode = AuraModeNum.Static := by
  have hl : load fs caps
      = create_default
          { fs with main := FileData.absent, backupOld := Option.some (FileData.corrupt s) }
          HandlePath.backupPath caps := by
    rw [load, h]
    simp [h]
  rw [hl]
  refine ⟨rfl, rfl, ?_, rfl, rfl⟩
  intro m hm
  exact seed_builtins_mem caps.standard [] m hm

/-- Witness for the C4 theorem on a concrete corrupt file: the config
path ends up absent and the backup holds the original bytes with the
returned defaults appended after them. -/
theorem load_corrupt_appends_defaults_to_backup_witness :
    (load fsC4 ledDataSBR).2.main = FileData.absent
    ∧ (load fsC4 ledDataSBR).2.backupOld
      = Option.some (FileData.appended (FileData.corrupt "bad json") (load fsC4 ledDataSBR).1)
    ∧ mapGet (load fsC4 ledDataSBR).1.builtins AuraModeNum.Static
      = Option.some (AuraEffect.default_with_mode AuraModeNum.Static) :=
  ⟨(load_corrupt_appends_defaults_to_backup fsC4 ledDataSBR "bad json" rfl).1,
   (load_corrupt_appends_defaults_to_backup fsC4 ledDataSBR "bad json" rfl).2.1,
   (load_corrupt_appends_defaults_to_backup fsC4 ledDataSBR "bad json" rfl).2.2.1
     AuraModeNum.Static (by decide)⟩

end Asusctl
